import Mathlib

/-!
Verification development for the property & query translation engine of the
generated Notion typed client (emitted by `ClientGenerator.generateClient`).

The definitions below are a shallow embedding of the generated client's
functions: `convertStatusGroupFilter`, `convertFilterToNotion`,
`convertSortsToNotion`, `convertPropertyToNotion`, `convertPropertyFromNotion`,
`convertPropertiesToNotion`, `convertPropertiesFromNotion`, `queryDatabase`,
`queryDatabaseAll`, `queryDatabaseIterator`, `createPage`, `updatePage`,
`deletePage`.  JavaScript dynamic values are modelled by the `JValue` type
(with a separate constructor for `undefined`); JS truthiness, `||`, member
access and `String(...)` coercion are modelled by `jsTruthy`, `jsOr`, `jget`
and `jsToString`.
-/

/-- Model of a JavaScript/JSON value.  `undefined` models `undefined`
(distinct from `null`: assigning `undefined` to an object member is dropped
by JSON serialization, while `null` is kept). -/
inductive JValue where
  | null : JValue
  | undefined : JValue
  | bool : Bool → JValue
  | num : Int → JValue
  | str : String → JValue
  | arr : List JValue → JValue
  | obj : List (String × JValue) → JValue

/-- JS truthiness (`NaN` is not modelled; numbers are modelled as integers). -/
def jsTruthy : JValue → Bool
  | .null => false
  | .undefined => false
  | .bool b => b
  | .num n => n != 0
  | .str s => s != ""
  | .arr _ => true
  | .obj _ => true

/-- JS `a || b`. -/
def jsOr (a b : JValue) : JValue := if jsTruthy a then a else b

/-- JS member access `v.k` (with optional chaining collapsed: accessing a
member of a non-object yields `undefined`; the generated code only accesses
members of values it has checked to be truthy, or uses `?.`). -/
def jget : JValue → String → JValue
  | .obj fs, k =>
    match fs.find? (fun p => p.1 == k) with
    | some p => p.2
    | none => .undefined
  | _, _ => .undefined

/-- JS index access `v[i]` for arrays (out of range gives `undefined`). -/
def jidx : JValue → Nat → JValue
  | .arr xs, i => xs.getD i .undefined
  | _, _ => .undefined

/-- JS `'k' in v` key-presence test. -/
def jhas (v : JValue) (k : String) : Bool :=
  match v with
  | .obj fs => fs.any (fun p => p.1 == k)
  | _ => false

/-- JS `String(value)` coercion on primitive values (the generated client only
applies it to strings under the generated payload types; arrays and objects
are given their JS `toString` results for string elements one level deep). -/
def jsToStringPrim : JValue → String
  | .str s => s
  | .num n => toString n
  | .bool true => "true"
  | .bool false => "false"
  | .null => ""
  | .undefined => ""
  | _ => "[object Object]"

/-- JS `String(value)` coercion. -/
def jsToString : JValue → String
  | .str s => s
  | .num n => toString n
  | .bool true => "true"
  | .bool false => "false"
  | .null => "null"
  | .undefined => "undefined"
  | .arr xs => String.intercalate "," (xs.map jsToStringPrim)
  | .obj _ => "[object Object]"

/-- JS object member assignment `o[k] = v`: overwrites in place if the key
exists (keeping its position), otherwise appends. -/
def objSet (fs : List (String × JValue)) (k : String) (v : JValue) :
    List (String × JValue) :=
  if fs.any (fun p => p.1 == k) then
    fs.map (fun p => if p.1 == k then (k, v) else p)
  else fs ++ [(k, v)]

/-- JS object spread-and-set `{...v, k: nv}` (the generated code only spreads
values known to be objects; other values contribute no members). -/
def jspreadSet (v : JValue) (k : String) (nv : JValue) : JValue :=
  match v with
  | .obj fs => .obj (objSet fs k nv)
  | _ => .obj [(k, nv)]

/-- Models JSON serialization of the outgoing properties bag: object members
whose value is `undefined` do not appear on the wire at all. -/
def serializeProperties (fs : List (String × JValue)) : List (String × JValue) :=
  fs.filter (fun p => match p.2 with | .undefined => false | _ => true)

/-- A status/select option of the resolved schema (`PropertyOption`). -/
structure PropertyOption where
  id : String
  name : String
  deriving DecidableEq

/-- A status group of the resolved schema (`StatusGroup`). -/
structure StatusGroup where
  id : String
  name : String
  color : String
  option_ids : List String
  deriving DecidableEq

/-- Per-property resolved schema entry (`ResolvedPropertyConfig`). -/
structure ResolvedPropertyConfig where
  id : String
  name : String
  displayName : String
  notionName : String
  type : String
  options : Option (List PropertyOption) := none
  groups : Option (List StatusGroup) := none
  deriving DecidableEq

/-- Per-database resolved schema entry (`ResolvedDatabaseConfig`). -/
structure ResolvedDatabaseConfig where
  id : String
  name : String
  displayName : String
  notionName : String
  properties : List ResolvedPropertyConfig
  deriving DecidableEq

/-- Embedding of the helper `getOptionsForGroup` inside
`convertStatusGroupFilter`: resolves a group name to the names of its options
(option ids with no matching option are filtered out). -/
def getOptionsForGroup (propConfig : ResolvedPropertyConfig)
    (groupName : String) : List String :=
  match (propConfig.groups.getD []).find? (fun g => g.name == groupName) with
  | none => []
  | some group =>
    group.option_ids.filterMap (fun optionId =>
      ((propConfig.options.getD []).find? (fun opt => opt.id == optionId)).map
        (fun opt => opt.name))

/-- The excluded-id set accumulated by the helper `getOptionsNotInGroups`:
option ids of every named group (a JS `Set`, used only for membership tests,
so modelled as an accumulated list). -/
def excludedOptionIds (propConfig : ResolvedPropertyConfig)
    (groupNames : List String) : List String :=
  groupNames.foldl (fun acc groupName =>
    match (propConfig.groups.getD []).find? (fun g => g.name == groupName) with
    | some group => acc ++ group.option_ids
    | none => acc) []

/-- Embedding of the helper `getOptionsNotInGroups`: names of all options of
the property whose id is not in any of the named groups. -/
def getOptionsNotInGroups (propConfig : ResolvedPropertyConfig)
    (groupNames : List String) : List String :=
  ((propConfig.options.getD []).filter
      (fun opt => !(excludedOptionIds propConfig groupNames).contains opt.id)).map
    (fun opt => opt.name)

/-- Insertion into a JS `Set` observed in iteration order (insertion order,
duplicates ignored). -/
def dedupInsert (acc : List String) (x : String) : List String :=
  if acc.contains x then acc else acc ++ [x]

/-- The option set accumulated by the `in_any` branch of
`convertStatusGroupFilter` (a JS `Set` filled group by group, then converted
back to an array in insertion order). -/
def inAnyOptions (propConfig : ResolvedPropertyConfig)
    (groupNames : List String) : List String :=
  groupNames.foldl (fun acc groupName =>
    (getOptionsForGroup propConfig groupName).foldl dedupInsert acc) []

/-- A `status_group` condition shape, as constrained by the generated filter
types: `{equals: g}`, `{does_not_equal: g}`, `{in_any: [g...]}`,
`{not_in_any: [g...]}`, `{is_empty: true}`, `{is_not_empty: true}`, or any
other single-entry object (forward-compatibility fallback). -/
inductive StatusGroupOp where
  | equals : String → StatusGroupOp
  | does_not_equal : String → StatusGroupOp
  | in_any : List String → StatusGroupOp
  | not_in_any : List String → StatusGroupOp
  | is_empty : StatusGroupOp
  | is_not_empty : StatusGroupOp
  | other : String → JValue → StatusGroupOp

/-- Domain/wire filter tree.  `prop p tk cond` models a leaf object
`{property: p, tk: cond}` (e.g. `{property: "Status", status: {equals: "x"}}`);
`status_group` models the derived `{property: p, status_group: {...}}` shape;
`timestampF` models `{timestamp: ts, ...cond}`. -/
inductive NotionFilter where
  | andF : List NotionFilter → NotionFilter
  | orF : List NotionFilter → NotionFilter
  | prop : String → String → JValue → NotionFilter
  | status_group : String → StatusGroupOp → NotionFilter
  | timestampF : String → JValue → NotionFilter

/-- A wire `status` leaf `{property: p, status: {k: v}}`, the shape emitted by
the status-group expansion. -/
def mkStatusCond (p k : String) (v : JValue) : NotionFilter :=
  .prop p "status" (.obj [(k, v)])

/-- Embedding of `convertStatusGroupFilter` of the generated client: expands a
`status_group` condition into ordinary wire `status` conditions using the
property's option/group catalogs, with 0/1/many arity simplification. -/
def convertStatusGroupFilter (propConfig : ResolvedPropertyConfig)
    (op : StatusGroupOp) : NotionFilter :=
  let notionPropertyName := propConfig.notionName
  match op with
  | .equals g =>
    match getOptionsForGroup propConfig g with
    | [] => mkStatusCond notionPropertyName "equals" (.str "__INVALID__")
    | [o] => mkStatusCond notionPropertyName "equals" (.str o)
    | options =>
      .orF (options.map (fun optionName =>
        mkStatusCond notionPropertyName "equals" (.str optionName)))
  | .does_not_equal g =>
    match getOptionsForGroup propConfig g with
    | [] => mkStatusCond notionPropertyName "is_not_empty" (.bool true)
    | [o] => mkStatusCond notionPropertyName "does_not_equal" (.str o)
    | options =>
      .andF (options.map (fun optionName =>
        mkStatusCond notionPropertyName "does_not_equal" (.str optionName)))
  | .in_any groupNames =>
    match inAnyOptions propConfig groupNames with
    | [] => mkStatusCond notionPropertyName "equals" (.str "__INVALID__")
    | [o] => mkStatusCond notionPropertyName "equals" (.str o)
    | optionsArray =>
      .orF (optionsArray.map (fun optionName =>
        mkStatusCond notionPropertyName "equals" (.str optionName)))
  | .not_in_any groupNames =>
    match getOptionsNotInGroups propConfig groupNames with
    | [] => mkStatusCond notionPropertyName "is_empty" (.bool true)
    | [o] => mkStatusCond notionPropertyName "equals" (.str o)
    | remainingOptions =>
      .orF (remainingOptions.map (fun optionName =>
        mkStatusCond notionPropertyName "equals" (.str optionName)))
  | .is_empty => mkStatusCond notionPropertyName "is_empty" (.bool true)
  | .is_not_empty => mkStatusCond notionPropertyName "is_not_empty" (.bool true)
  | .other k v => .prop notionPropertyName "status" (.obj [(k, v)])

lemma mem_foldl_dedupInsert (l : List String) (acc : List String) (x : String) :
    x ∈ l.foldl dedupInsert acc ↔ x ∈ acc ∨ x ∈ l := by
  induction l generalizing acc with
  | nil => simp
  | cons y ys ih =>
    rw [List.foldl_cons, ih]
    unfold dedupInsert
    by_cases hy : y ∈ acc
    · have hc : acc.contains y = true := by simpa using hy
      rw [if_pos hc]
      constructor
      · rintro (h | h)
        · exact Or.inl h
        · exact Or.inr (List.mem_cons_of_mem _ h)
      · rintro (h | h)
        · exact Or.inl h
        · rcases List.mem_cons.mp h with rfl | h
          · exact Or.inl hy
          · exact Or.inr h
    · have hc : ¬acc.contains y = true := by simpa using hy
      rw [if_neg hc]
      simp only [List.mem_append, List.mem_singleton]
      constructor
      · rintro (⟨h | h⟩ | h)
        · exact Or.inl h
        · exact Or.inr (h ▸ List.mem_cons_self _ _)
        · exact Or.inr (List.mem_cons_of_mem _ h)
      · rintro (h | h)
        · exact Or.inl (Or.inl h)
        · rcases List.mem_cons.mp h with rfl | h
          · exact Or.inl (Or.inr rfl)
          · exact Or.inr h

lemma nodup_foldl_dedupInsert (l : List String) (acc : List String)
    (h : acc.Nodup) : (l.foldl dedupInsert acc).Nodup := by
  induction l generalizing acc with
  | nil => simpa using h
  | cons y ys ih =>
    rw [List.foldl_cons]
    apply ih
    unfold dedupInsert
    by_cases hy : y ∈ acc
    · have hc : acc.contains y = true := by simpa using hy
      rw [if_pos hc]; exact h
    · have hc : ¬acc.contains y = true := by simpa using hy
      rw [if_neg hc]
      refine List.Nodup.append h (List.nodup_singleton y) ?_
      intro a ha hay
      rcases List.mem_singleton.mp hay with rfl
      exact hy ha

lemma mem_inAnyOptions (propConfig : ResolvedPropertyConfig)
    (groupNames : List String) (x : String) :
    x ∈ inAnyOptions propConfig groupNames ↔
      ∃ g ∈ groupNames, x ∈ getOptionsForGroup propConfig g := by
  suffices h : ∀ (gs : List String) (acc : List String),
      x ∈ gs.foldl (fun a g => (getOptionsForGroup propConfig g).foldl dedupInsert a) acc ↔
        x ∈ acc ∨ ∃ g ∈ gs, x ∈ getOptionsForGroup propConfig g by
    have := h groupNames []
    simpa [inAnyOptions] using this
  intro gs
  induction gs with
  | nil => simp
  | cons g gs ih =>
    intro acc
    simp only [List.foldl_cons, ih, mem_foldl_dedupInsert]
    constructor
    · rintro (⟨h | h⟩ | ⟨g', hg', hx⟩)
      · exact Or.inl h
      · exact Or.inr ⟨g, List.mem_cons_self _ _, h⟩
      · exact Or.inr ⟨g', List.mem_cons_of_mem _ hg', hx⟩
    · rintro (h | ⟨g', hg', hx⟩)
      · exact Or.inl (Or.inl h)
      · rcases List.mem_cons.mp hg' with rfl | hg'
        · exact Or.inl (Or.inr hx)
        · exact Or.inr ⟨g', hg', hx⟩

lemma nodup_inAnyOptions (propConfig : ResolvedPropertyConfig)
    (groupNames : List String) : (inAnyOptions propConfig groupNames).Nodup := by
  suffices h : ∀ (gs : List String) (acc : List String), acc.Nodup →
      (gs.foldl (fun a g => (getOptionsForGroup propConfig g).foldl dedupInsert a) acc).Nodup by
    exact h groupNames [] List.nodup_nil
  intro gs
  induction gs with
  | nil => intro acc h; simpa using h
  | cons g gs ih =>
    intro acc h
    simp only [List.foldl_cons]
    exact ih _ (nodup_foldl_dedupInsert _ _ h)

lemma mem_excludedOptionIds (pc : ResolvedPropertyConfig) (gs : List String)
    (i : String) :
    i ∈ excludedOptionIds pc gs ↔
      ∃ g ∈ gs, ∃ grp, (pc.groups.getD []).find? (fun gr => gr.name == g) = some grp ∧
        i ∈ grp.option_ids := by
  suffices h : ∀ (l : List String) (acc : List String),
      i ∈ l.foldl (fun acc groupName =>
          match (pc.groups.getD []).find? (fun g => g.name == groupName) with
          | some group => acc ++ group.option_ids
          | none => acc) acc ↔
        i ∈ acc ∨ ∃ g ∈ l, ∃ grp,
          (pc.groups.getD []).find? (fun gr => gr.name == g) = some grp ∧
            i ∈ grp.option_ids by
    simpa [excludedOptionIds] using h gs []
  intro l
  induction l with
  | nil => simp
  | cons g l ih =>
    intro acc
    rw [List.foldl_cons]
    rcases hfind : (pc.groups.getD []).find? (fun gr => gr.name == g) with _ | grp
    · simp only [hfind, ih, List.exists_mem_cons_iff]
      constructor
      · rintro (h | h)
        · exact Or.inl h
        · exact Or.inr (Or.inr h)
      · rintro (h | ⟨grp, hgrp, _⟩ | h)
        · exact Or.inl h
        · exact absurd hgrp (by simp [hfind])
        · exact Or.inr h
    · simp only [hfind, ih, List.exists_mem_cons_iff, List.mem_append]
      constructor
      · rintro (⟨h | h⟩ | h)
        · exact Or.inl h
        · exact Or.inr (Or.inl ⟨grp, rfl, h⟩)
        · exact Or.inr (Or.inr h)
      · rintro (h | ⟨grp2, hgrp2, hi⟩ | h)
        · exact Or.inl (Or.inl h)
        · cases Option.some.inj hgrp2
          exact Or.inl (Or.inr hi)
        · exact Or.inr h

lemma mem_getOptionsNotInGroups (pc : ResolvedPropertyConfig) (gs : List String)
    (x : String) :
    x ∈ getOptionsNotInGroups pc gs ↔
      ∃ opt ∈ pc.options.getD [], opt.name = x ∧
        opt.id ∉ excludedOptionIds pc gs := by
  simp only [getOptionsNotInGroups, List.mem_map, List.mem_filter,
    Bool.not_eq_true']
  constructor
  · rintro ⟨opt, ⟨hmem, hcont⟩, hname⟩
    refine ⟨opt, hmem, hname, fun habs => ?_⟩
    have hc : (excludedOptionIds pc gs).contains opt.id = true := List.elem_iff.mpr habs
    rw [hc] at hcont
    cases hcont
  · rintro ⟨opt, hmem, hname, hnot⟩
    refine ⟨opt, ⟨hmem, ?_⟩, hname⟩
    cases hc : (excludedOptionIds pc gs).contains opt.id with
    | false => rfl
    | true => exact absurd (List.elem_iff.mp hc) hnot

/-- Sample resolved status property used by the concrete witnesses: five
options partitioned into groups of size 0, 1, 2 and 2. -/
def sampleStatusPc : ResolvedPropertyConfig :=
  { id := "prop-status"
    name := "status"
    displayName := "Status"
    notionName := "Status"
    type := "status"
    options := some [⟨"o1", "Backlog"⟩, ⟨"o2", "InProgress"⟩, ⟨"o3", "Review"⟩,
      ⟨"o4", "Done"⟩, ⟨"o5", "Canceled"⟩]
    groups := some [⟨"g0", "Nothing", "red", []⟩,
      ⟨"g1", "Todo", "gray", ["o1"]⟩,
      ⟨"g2", "Active", "blue", ["o2", "o3"]⟩,
      ⟨"g3", "Complete", "green", ["o4", "o5"]⟩] }

/-- C1: for a status property with configured groups, a `status_group`
`equals(g)` condition (and `in_any(g1..gn)`, with S the union of the groups'
option-name sets) expands to: the unsatisfiable sentinel `equals "__INVALID__"`
when S is empty; a direct status `equals` when S has exactly one option (never
a one-branch OR); an OR compound of per-option status `equals` conditions when
S has more than one option — all emitted under the property's wire name. -/
theorem statusGroup_equals_inAny_expansion
    (pc : ResolvedPropertyConfig) (g : String) (gs : List String) :
    (getOptionsForGroup pc g = [] →
      convertStatusGroupFilter pc (.equals g) =
        mkStatusCond pc.notionName "equals" (.str "__INVALID__")) ∧
    (∀ o, getOptionsForGroup pc g = [o] →
      convertStatusGroupFilter pc (.equals g) =
        mkStatusCond pc.notionName "equals" (.str o)) ∧
    (∀ o₁ o₂ os, getOptionsForGroup pc g = o₁ :: o₂ :: os →
      convertStatusGroupFilter pc (.equals g) =
        .orF ((o₁ :: o₂ :: os).map (fun o =>
          mkStatusCond pc.notionName "equals" (.str o)))) ∧
    (inAnyOptions pc gs).Nodup ∧
    (∀ x, x ∈ inAnyOptions pc gs ↔ ∃ gi ∈ gs, x ∈ getOptionsForGroup pc gi) ∧
    (inAnyOptions pc gs = [] →
      convertStatusGroupFilter pc (.in_any gs) =
        mkStatusCond pc.notionName "equals" (.str "__INVALID__")) ∧
    (∀ o, inAnyOptions pc gs = [o] →
      convertStatusGroupFilter pc (.in_any gs) =
        mkStatusCond pc.notionName "equals" (.str o)) ∧
    (∀ o₁ o₂ os, inAnyOptions pc gs = o₁ :: o₂ :: os →
      convertStatusGroupFilter pc (.in_any gs) =
        .orF ((o₁ :: o₂ :: os).map (fun o =>
          mkStatusCond pc.notionName "equals" (.str o)))) := by
  refine ⟨?_, ?_, ?_, nodup_inAnyOptions pc gs, mem_inAnyOptions pc gs,
    ?_, ?_, ?_⟩
  · intro h; simp [convertStatusGroupFilter, h]
  · intro o h; simp [convertStatusGroupFilter, h]
  · intro o₁ o₂ os h; simp [convertStatusGroupFilter, h]
  · intro h; simp [convertStatusGroupFilter, h]
  · intro o h; simp [convertStatusGroupFilter, h]
  · intro o₁ o₂ os h; simp [convertStatusGroupFilter, h]

/-- Witness for C1 at the sample status property: an empty group yields the
sentinel, a one-option group yields a direct equals, and `in_any` over two
groups with four options in total yields a four-branch OR. -/
theorem statusGroup_equals_inAny_expansion_witness :
    convertStatusGroupFilter sampleStatusPc (.equals "Nothing") =
      mkStatusCond "Status" "equals" (.str "__INVALID__") ∧
    convertStatusGroupFilter sampleStatusPc (.equals "Todo") =
      mkStatusCond "Status" "equals" (.str "Backlog") ∧
    convertStatusGroupFilter sampleStatusPc (.in_any ["Active", "Complete"]) =
      .orF (["InProgress", "Review", "Done", "Canceled"].map (fun o =>
        mkStatusCond "Status" "equals" (.str o))) :=
  ⟨(statusGroup_equals_inAny_expansion sampleStatusPc "Nothing" []).1 rfl,
   (statusGroup_equals_inAny_expansion sampleStatusPc "Todo" []).2.1
     "Backlog" rfl,
   (statusGroup_equals_inAny_expansion sampleStatusPc ""
       ["Active", "Complete"]).2.2.2.2.2.2.2
     "InProgress" "Review" ["Done", "Canceled"] rfl⟩

/-- C2: for a status property with configured groups, a `status_group`
`not_in_any(g1..gn)` condition takes S = the property's full option set minus
the union of the named groups' options (characterised below through
`excludedOptionIds`), and expands to: `is_empty` when S is empty; a direct
status `equals` on the single remaining option when S has one element; an OR
compound of per-option status `equals` conditions when S has more than one
element.  The final conjunct is the concrete instance from the spec:
ALL = five options, G(g) = the last two, giving OR(equals o1..o3). -/
theorem statusGroup_notInAny_complement
    (pc : ResolvedPropertyConfig) (gs : List String) :
    (∀ x, x ∈ getOptionsNotInGroups pc gs ↔
      ∃ opt ∈ pc.options.getD [], opt.name = x ∧
        opt.id ∉ excludedOptionIds pc gs) ∧
    (∀ i, i ∈ excludedOptionIds pc gs ↔
      ∃ g ∈ gs, ∃ grp, (pc.groups.getD []).find? (fun gr => gr.name == g) =
        some grp ∧ i ∈ grp.option_ids) ∧
    (getOptionsNotInGroups pc gs = [] →
      convertStatusGroupFilter pc (.not_in_any gs) =
        mkStatusCond pc.notionName "is_empty" (.bool true)) ∧
    (∀ o, getOptionsNotInGroups pc gs = [o] →
      convertStatusGroupFilter pc (.not_in_any gs) =
        mkStatusCond pc.notionName "equals" (.str o)) ∧
    (∀ o₁ o₂ os, getOptionsNotInGroups pc gs = o₁ :: o₂ :: os →
      convertStatusGroupFilter pc (.not_in_any gs) =
        .orF ((o₁ :: o₂ :: os).map (fun o =>
          mkStatusCond pc.notionName "equals" (.str o)))) ∧
    convertStatusGroupFilter sampleStatusPc (.not_in_any ["Complete"]) =
      .orF (["Backlog", "InProgress", "Review"].map (fun o =>
        mkStatusCond "Status" "equals" (.str o))) := by
  refine ⟨mem_getOptionsNotInGroups pc gs, mem_excludedOptionIds pc gs,
    ?_, ?_, ?_, rfl⟩
  · intro h; simp [convertStatusGroupFilter, h]
  · intro o h; simp [convertStatusGroupFilter, h]
  · intro o₁ o₂ os h; simp [convertStatusGroupFilter, h]

/-- Witness for C2 at the sample status property: excluding all four groups
leaves nothing (`is_empty`), excluding all but `Todo` leaves one option
(direct equals), and excluding only `Complete` leaves three options
(three-branch OR). -/
theorem statusGroup_notInAny_complement_witness :
    convertStatusGroupFilter sampleStatusPc
        (.not_in_any ["Todo", "Active", "Complete"]) =
      mkStatusCond "Status" "is_empty" (.bool true) ∧
    convertStatusGroupFilter sampleStatusPc (.not_in_any ["Active", "Complete"]) =
      mkStatusCond "Status" "equals" (.str "Backlog") ∧
    convertStatusGroupFilter sampleStatusPc (.not_in_any ["Complete"]) =
      .orF (["Backlog", "InProgress", "Review"].map (fun o =>
        mkStatusCond "Status" "equals" (.str o))) :=
  ⟨(statusGroup_notInAny_complement sampleStatusPc
      ["Todo", "Active", "Complete"]).2.2.1 rfl,
   (statusGroup_notInAny_complement sampleStatusPc
      ["Active", "Complete"]).2.2.2.1 "Backlog" rfl,
   (statusGroup_notInAny_complement sampleStatusPc
      ["Complete"]).2.2.2.2.1 "Backlog" "InProgress" ["Review"] rfl⟩

/-- C3: for a status property with configured groups, a `status_group`
`does_not_equal(g)` condition with S = the group's option-name set expands to:
`is_not_empty` when S is empty; a direct status `does_not_equal` when S has
exactly one option; an AND compound of per-option status `does_not_equal`
conditions when S has more than one option. -/
theorem statusGroup_doesNotEqual_expansion
    (pc : ResolvedPropertyConfig) (g : String) :
    (getOptionsForGroup pc g = [] →
      convertStatusGroupFilter pc (.does_not_equal g) =
        mkStatusCond pc.notionName "is_not_empty" (.bool true)) ∧
    (∀ o, getOptionsForGroup pc g = [o] →
      convertStatusGroupFilter pc (.does_not_equal g) =
        mkStatusCond pc.notionName "does_not_equal" (.str o)) ∧
    (∀ o₁ o₂ os, getOptionsForGroup pc g = o₁ :: o₂ :: os →
      convertStatusGroupFilter pc (.does_not_equal g) =
        .andF ((o₁ :: o₂ :: os).map (fun o =>
          mkStatusCond pc.notionName "does_not_equal" (.str o)))) := by
  refine ⟨?_, ?_, ?_⟩
  · intro h; simp [convertStatusGroupFilter, h]
  · intro o h; simp [convertStatusGroupFilter, h]
  · intro o₁ o₂ os h; simp [convertStatusGroupFilter, h]

/-- Witness for C3 at the sample status property: the empty group gives
`is_not_empty`, the one-option group a direct `does_not_equal`, the two-option
group a two-branch AND of `does_not_equal`. -/
theorem statusGroup_doesNotEqual_expansion_witness :
    convertStatusGroupFilter sampleStatusPc (.does_not_equal "Nothing") =
      mkStatusCond "Status" "is_not_empty" (.bool true) ∧
    convertStatusGroupFilter sampleStatusPc (.does_not_equal "Todo") =
      mkStatusCond "Status" "does_not_equal" (.str "Backlog") ∧
    convertStatusGroupFilter sampleStatusPc (.does_not_equal "Active") =
      .andF (["InProgress", "Review"].map (fun o =>
        mkStatusCond "Status" "does_not_equal" (.str o))) :=
  ⟨(statusGroup_doesNotEqual_expansion sampleStatusPc "Nothing").1 rfl,
   (statusGroup_doesNotEqual_expansion sampleStatusPc "Todo").2.1 "Backlog" rfl,
   (statusGroup_doesNotEqual_expansion sampleStatusPc "Active").2.2
     "InProgress" "Review" [] rfl⟩

/-- Embedding of `convertPropertyToNotion` of the generated client: marshals a
single domain value into its wire property payload.  A null/undefined domain
value yields `undefined` (the member is then dropped by JSON serialization,
see `serializeProperties`). -/
def convertPropertyToNotion (config : ResolvedPropertyConfig)
    (value : JValue) : JValue :=
  match value with
  | .null => .undefined
  | .undefined => .undefined
  | value =>
    match config.type with
    | "title" =>
      .obj [("title", .arr [.obj [("text", .obj [("content",
        .str (jsToString value))])]])]
    | "rich_text" =>
      .obj [("rich_text", .arr [.obj [("text", .obj [("content", value)])]])]
    | "number" => .obj [("number", value)]
    | "select" => .obj [("select", .obj [("name", value)])]
    | "status" =>
      match value with
      | .str s => .obj [("status", .obj [("name", .str s)])]
      | v =>
        if (match v with | .obj _ => true | .arr _ => true | _ => false)
            && jsTruthy (jget v "name") then
          .obj [("status", .obj [("name", jget v "name")])]
        else .obj [("status", .obj [("name", v)])]
    | "multi_select" =>
      .obj [("multi_select",
        match value with
        | .arr xs => .arr (xs.map (fun v => .obj [("name", .str (jsToString v))]))
        | _ => .arr [])]
    | "date" => .obj [("date", value)]
    | "people" =>
      .obj [("people",
        match value with
        | .arr xs => .arr (xs.map (fun id => .obj [("id", id)]))
        | _ => .arr [])]
    | "files" =>
      .obj [("files",
        match value with
        | .arr xs => .arr (xs.map (fun file =>
            .obj [("name", jget file "name"),
              ("external", .obj [("url", jget file "url")])]))
        | _ => .arr [])]
    | "checkbox" => .obj [("checkbox", value)]
    | "url" => .obj [("url", value)]
    | "email" => .obj [("email", value)]
    | "phone_number" => .obj [("phone_number", value)]
    | "relation" =>
      .obj [("relation",
        match value with
        | .arr xs => .arr (xs.map (fun id => .obj [("id", id)]))
        | _ => .arr [])]
    | _ => value

/-- Embedding of `convertPropertyFromNotion` of the generated client:
unmarshals a single wire property payload back into a domain value.  A falsy
incoming value yields `null` for every type. -/
def convertPropertyFromNotion (config : ResolvedPropertyConfig)
    (value : JValue) : JValue :=
  if jsTruthy value then
    let val := value
    match config.type with
    | "title" =>
      jsOr (jget (jget (jidx (jget val "title") 0) "text") "content") (.str "")
    | "rich_text" =>
      jsOr (jget (jget (jidx (jget val "rich_text") 0) "text") "content")
        (.str "")
    | "number" => jget val "number"
    | "select" => jsOr (jget (jget val "select") "name") .null
    | "status" =>
      let statusValue := jget val "status"
      if jsTruthy statusValue && jsTruthy (jget statusValue "name")
          && config.groups.isSome && (config.groups.getD []).length > 0 then
        let group := (config.groups.getD []).find? (fun g =>
          match jget statusValue "id" with
          | .str i => g.option_ids.contains i
          | _ => false)
        jspreadSet statusValue "group"
          (match group with | some g => .str g.name | none => .undefined)
      else statusValue
    | "multi_select" => jsOr (jget val "multi_select") (.arr [])
    | "date" => jget val "date"
    | "people" => jsOr (jget val "people") (.arr [])
    | "files" => jsOr (jget val "files") (.arr [])
    | "checkbox" => jsOr (jget val "checkbox") (.bool false)
    | "url" => jget val "url"
    | "email" => jget val "email"
    | "phone_number" => jget val "phone_number"
    | "relation" =>
      jsOr (match jget val "relation" with
        | .arr xs => .arr (xs.map (fun r => jget r "id"))
        | .null => .undefined
        | .undefined => .undefined
        | v => v) (.arr [])
    | "created_time" => jget val "created_time"
    | "created_by" => jget val "created_by"
    | "last_edited_time" => jget val "last_edited_time"
    | "last_edited_by" => jget val "last_edited_by"
    | "formula" => jget val "formula"
    | "rollup" => jget val "rollup"
    | "unique_id" => jget val "unique_id"
    | _ => val
  else .null

/-- Embedding of `convertPropertiesToNotion` of the generated client: encodes
each payload field whose logical name resolves in the schema, keyed by the
wire name; fields with no mapping are skipped. -/
def convertPropertiesToNotion (config : ResolvedDatabaseConfig)
    (properties : List (String × JValue)) : List (String × JValue) :=
  properties.foldl (fun converted kv =>
    match config.properties.find? (fun p => p.name == kv.1) with
    | none => converted
    | some propConfig =>
      objSet converted propConfig.notionName
        (convertPropertyToNotion propConfig kv.2)) []

/-- Embedding of `convertPropertiesFromNotion` of the generated client:
decodes each wire field whose wire name resolves in the schema, keyed by the
logical name; fields with no mapping are skipped. -/
def convertPropertiesFromNotion (config : ResolvedDatabaseConfig)
    (properties : List (String × JValue)) : List (String × JValue) :=
  properties.foldl (fun converted kv =>
    match config.properties.find? (fun p => p.notionName == kv.1) with
    | none => converted
    | some propConfig =>
      objSet converted propConfig.name
        (convertPropertyFromNotion propConfig kv.2)) []

/-- Sample title property used by concrete witnesses. -/
def sampleTitlePc : ResolvedPropertyConfig :=
  { id := "prop-title", name := "name", displayName := "Name",
    notionName := "Name", type := "title" }

/-- Sample select property used by concrete witnesses. -/
def sampleSelectPc : ResolvedPropertyConfig :=
  { id := "prop-select", name := "category", displayName := "Category",
    notionName := "Category", type := "select",
    options := some [⟨"s1", "Work"⟩, ⟨"s2", "Home"⟩] }

/-- Sample multi-select property used by concrete witnesses. -/
def sampleMultiSelectPc : ResolvedPropertyConfig :=
  { id := "prop-ms", name := "tags", displayName := "Tags",
    notionName := "Tags", type := "multi_select",
    options := some [⟨"m1", "Design"⟩, ⟨"m2", "Dev"⟩] }

/-- Sample resolved database schema used by concrete witnesses. -/
def sampleDbConfig : ResolvedDatabaseConfig :=
  { id := "db-1", name := "tasks", displayName := "Tasks",
    notionName := "Tasks DB",
    properties := [sampleTitlePc, sampleSelectPc, sampleMultiSelectPc,
      sampleStatusPc] }

/-- C4 counterexample: the claimed round trip `decode(encode(v)) = v` fails
for the multi-select type at the representative non-null domain value
`["Design"]` — the write side takes an array of option names while the read
side returns an array of option objects, so decoding the encoding of
`["Design"]` yields `[{name: "Design"}]`, not `["Design"]`. -/
theorem propertyCodec_roundTrip_multiSelect_counterexample :
    convertPropertyFromNotion sampleMultiSelectPc
        (convertPropertyToNotion sampleMultiSelectPc (.arr [.str "Design"])) ≠
      .arr [.str "Design"] := by
  intro h
  have h2 : JValue.arr [.obj [("name", .str "Design")]] = .arr [.str "Design"] := h
  injection h2 with h3
  injection h3 with h4 h5
  exact JValue.noConfusion h4

/-- C4 (amended): `encode(null/undefined)` yields `undefined`, and the wire
payload built from a single null/undefined field is empty after JSON
serialization; `decode` of a wholly null/undefined wire value yields `null`
for every type; `decode` of a present wire object whose inner payload is null
yields the type's empty value (empty array for the list types, `false` for
checkbox, `null` for select/number, the empty string for text); and the round
trip `decode(encode(v)) = v` holds for the types whose read and write domain
shapes coincide: title, rich_text, number, select (non-empty name), date,
checkbox, url, email, phone_number and relation. -/
theorem propertyCodec_roundTrip_amended :
    (∀ pc : ResolvedPropertyConfig,
      convertPropertyToNotion pc .null = .undefined ∧
      convertPropertyToNotion pc .undefined = .undefined) ∧
    (∀ (cfg : ResolvedDatabaseConfig) (k : String) (v : JValue)
        (pc : ResolvedPropertyConfig),
      cfg.properties.find? (fun pr => pr.name == k) = some pc →
      v = .null ∨ v = .undefined →
      serializeProperties (convertPropertiesToNotion cfg [(k, v)]) = []) ∧
    (∀ pc : ResolvedPropertyConfig,
      convertPropertyFromNotion pc .null = .null ∧
      convertPropertyFromNotion pc .undefined = .null) ∧
    (∀ pc : ResolvedPropertyConfig,
      (pc.type = "multi_select" →
        convertPropertyFromNotion pc (.obj [("multi_select", .null)]) = .arr []) ∧
      (pc.type = "people" →
        convertPropertyFromNotion pc (.obj [("people", .null)]) = .arr []) ∧
      (pc.type = "files" →
        convertPropertyFromNotion pc (.obj [("files", .null)]) = .arr []) ∧
      (pc.type = "relation" →
        convertPropertyFromNotion pc (.obj [("relation", .null)]) = .arr []) ∧
      (pc.type = "checkbox" →
        convertPropertyFromNotion pc (.obj [("checkbox", .null)]) = .bool false) ∧
      (pc.type = "select" →
        convertPropertyFromNotion pc (.obj [("select", .null)]) = .null) ∧
      (pc.type = "number" →
        convertPropertyFromNotion pc (.obj [("number", .null)]) = .null) ∧
      (pc.type = "title" →
        convertPropertyFromNotion pc (.obj [("title", .null)]) = .str "")) ∧
    (∀ pc : ResolvedPropertyConfig,
      (pc.type = "title" → ∀ s, convertPropertyFromNotion pc
        (convertPropertyToNotion pc (.str s)) = .str s) ∧
      (pc.type = "rich_text" → ∀ s, convertPropertyFromNotion pc
        (convertPropertyToNotion pc (.str s)) = .str s) ∧
      (pc.type = "number" → ∀ n, convertPropertyFromNotion pc
        (convertPropertyToNotion pc (.num n)) = .num n) ∧
      (pc.type = "select" → ∀ s, s ≠ "" → convertPropertyFromNotion pc
        (convertPropertyToNotion pc (.str s)) = .str s) ∧
      (pc.type = "date" → ∀ v, v ≠ .null → v ≠ .undefined →
        convertPropertyFromNotion pc (convertPropertyToNotion pc v) = v) ∧
      (pc.type = "checkbox" → ∀ b, convertPropertyFromNotion pc
        (convertPropertyToNotion pc (.bool b)) = .bool b) ∧
      (pc.type = "url" → ∀ v, v ≠ .null → v ≠ .undefined →
        convertPropertyFromNotion pc (convertPropertyToNotion pc v) = v) ∧
      (pc.type = "email" → ∀ v, v ≠ .null → v ≠ .undefined →
        convertPropertyFromNotion pc (convertPropertyToNotion pc v) = v) ∧
      (pc.type = "phone_number" → ∀ v, v ≠ .null → v ≠ .undefined →
        convertPropertyFromNotion pc (convertPropertyToNotion pc v) = v) ∧
      (pc.type = "relation" → ∀ xs, convertPropertyFromNotion pc
        (convertPropertyToNotion pc (.arr xs)) = .arr xs)) := by
  refine ⟨?_, ?_, ?_, ?_, ?_⟩
  · intro pc; exact ⟨rfl, rfl⟩
  · rintro cfg k v pc hfind (rfl | rfl) <;>
      simp [convertPropertiesToNotion, hfind, convertPropertyToNotion, objSet,
        serializeProperties]
  · intro pc; exact ⟨rfl, rfl⟩
  · intro pc
    refine ⟨?_, ?_, ?_, ?_, ?_, ?_, ?_, ?_⟩ <;>
      (intro h;
       simp [convertPropertyFromNotion, h, jsTruthy, jget, jidx, jsOr])
  · intro pc
    refine ⟨?_, ?_, ?_, ?_, ?_, ?_, ?_, ?_, ?_, ?_⟩
    · intro h s
      by_cases hs : s = "" <;>
        simp [convertPropertyToNotion, convertPropertyFromNotion, h, hs,
          jsToString, jsTruthy, jget, jidx, jsOr]
    · intro h s
      by_cases hs : s = "" <;>
        simp [convertPropertyToNotion, convertPropertyFromNotion, h, hs,
          jsTruthy, jget, jidx, jsOr]
    · intro h n
      simp [convertPropertyToNotion, convertPropertyFromNotion, h, jsTruthy,
        jget]
    · intro h s hs
      simp [convertPropertyToNotion, convertPropertyFromNotion, h, hs,
        jsTruthy, jget, jsOr]
    · intro h v hn hu
      cases v <;> first
        | exact absurd rfl hn
        | exact absurd rfl hu
        | simp [convertPropertyToNotion, convertPropertyFromNotion, h,
            jsTruthy, jget]
    · intro h b
      cases b <;>
        simp [convertPropertyToNotion, convertPropertyFromNotion, h,
          jsTruthy, jget, jsOr]
    · intro h v hn hu
      cases v <;> first
        | exact absurd rfl hn
        | exact absurd rfl hu
        | simp [convertPropertyToNotion, convertPropertyFromNotion, h,
            jsTruthy, jget]
    · intro h v hn hu
      cases v <;> first
        | exact absurd rfl hn
        | exact absurd rfl hu
        | simp [convertPropertyToNotion, convertPropertyFromNotion, h,
            jsTruthy, jget]
    · intro h v hn hu
      cases v <;> first
        | exact absurd rfl hn
        | exact absurd rfl hu
        | simp [convertPropertyToNotion, convertPropertyFromNotion, h,
            jsTruthy, jget]
    · intro h xs
      obtain ⟨i, nm, dn, nn, ty, os, gr⟩ := pc
      simp only at h
      subst h
      have h1 : convertPropertyToNotion ⟨i, nm, dn, nn, "relation", os, gr⟩
            (.arr xs) =
          .obj [("relation", .arr (xs.map (fun id => .obj [("id", id)])))] := rfl
      rw [h1]
      have h2 : convertPropertyFromNotion ⟨i, nm, dn, nn, "relation", os, gr⟩
            (.obj [("relation", .arr (xs.map (fun id => .obj [("id", id)])))]) =
          jsOr (.arr ((xs.map (fun id => JValue.obj [("id", id)])).map
            (fun r => jget r "id"))) (.arr []) := rfl
      rw [h2, List.map_map]
      rw [show ((fun r => jget r "id") ∘ fun id : JValue =>
          JValue.obj [("id", id)]) = (id : JValue → JValue) from
        funext fun v => rfl]
      rw [List.map_id]
      rfl

/-- Witness for the amended C4 at concrete inputs: a title round trip, a
select round trip on a non-empty name, the empty serialized payload for a
null field, the empty-array decode of a null multi-select payload, and the
null decode of a null wire value. -/
theorem propertyCodec_roundTrip_amended_witness :
    convertPropertyFromNotion sampleTitlePc
        (convertPropertyToNotion sampleTitlePc (.str "Hello")) = .str "Hello" ∧
    convertPropertyFromNotion sampleSelectPc
        (convertPropertyToNotion sampleSelectPc (.str "Work")) = .str "Work" ∧
    serializeProperties
        (convertPropertiesToNotion sampleDbConfig [("tags", .null)]) = [] ∧
    convertPropertyFromNotion sampleMultiSelectPc
        (.obj [("multi_select", .null)]) = .arr [] ∧
    convertPropertyFromNotion sampleStatusPc .null = .null :=
  ⟨(propertyCodec_roundTrip_amended.2.2.2.2 sampleTitlePc).1 rfl "Hello",
   (propertyCodec_roundTrip_amended.2.2.2.2 sampleSelectPc).2.2.2.1 rfl "Work"
     (by decide),
   propertyCodec_roundTrip_amended.2.1 sampleDbConfig "tags" .null
     sampleMultiSelectPc rfl (Or.inl rfl),
   (propertyCodec_roundTrip_amended.2.2.2.1 sampleMultiSelectPc).1 rfl,
   (propertyCodec_roundTrip_amended.2.2.1 sampleStatusPc).1⟩

mutual

/-- Embedding of `convertFilterToNotion` of the generated client: recursive
translation of a domain filter tree to the wire tree.  Compounds recurse;
property leaves rewrite the logical name to the wire name when a mapping
exists and pass through unchanged otherwise; a `status_group` leaf on a
status property with a configured group catalog is expanded by
`convertStatusGroupFilter`; timestamp leaves pass through. -/
def convertFilterToNotion (config : ResolvedDatabaseConfig) :
    NotionFilter → NotionFilter
  | .andF cs => .andF (convertFilterListToNotion config cs)
  | .orF cs => .orF (convertFilterListToNotion config cs)
  | .prop p tk cond =>
    match config.properties.find? (fun pr => pr.name == p) with
    | some propConfig => .prop propConfig.notionName tk cond
    | none => .prop p tk cond
  | .status_group p op =>
    match config.properties.find? (fun pr => pr.name == p) with
    | some propConfig =>
      if propConfig.type == "status" && propConfig.groups.isSome then
        convertStatusGroupFilter propConfig op
      else .status_group propConfig.notionName op
    | none => .status_group p op
  | .timestampF t c => .timestampF t c

/-- Recursion of `convertFilterToNotion` over the children of a compound
filter (`filterObj.and.map(...)` / `filterObj.or.map(...)`). -/
def convertFilterListToNotion (config : ResolvedDatabaseConfig) :
    List NotionFilter → List NotionFilter
  | [] => []
  | f :: fs =>
    convertFilterToNotion config f :: convertFilterListToNotion config fs

end

/-- A sort specification entry of the generated client: either a property
sort or a timestamp sort, with a direction. -/
structure NotionSort where
  property : Option String := none
  timestamp : Option String := none
  direction : String
  deriving DecidableEq

/-- The per-entry body of `convertSortsToNotion`: rewrites the logical
property name to the wire name when the entry names a property with a
mapping; otherwise (no match, or a timestamp sort) returns the entry as-is.
An entry with an empty-string property name is falsy in JS and also passes
through. -/
def convertSortToNotion (config : ResolvedDatabaseConfig)
    (sort : NotionSort) : NotionSort :=
  match sort.property with
  | some p =>
    if p == "" then sort
    else
      match config.properties.find? (fun pr => pr.name == p) with
      | some propConfig => { sort with property := some propConfig.notionName }
      | none => sort
  | none => sort

/-- Embedding of `convertSortsToNotion` of the generated client. -/
def convertSortsToNotion (config : ResolvedDatabaseConfig)
    (sorts : List NotionSort) : List NotionSort :=
  sorts.map (convertSortToNotion config)

/-- A call issued to the injected Notion client (the transport collaborator):
`pages.create`, `pages.update`, `pages.retrieve` or `databases.query`.
`pagesUpdate` records the optional `properties` bag and the optional
`archived` flag exactly as passed. -/
inductive TransportCall where
  | pagesCreate : String → List (String × JValue) → TransportCall
  | pagesUpdate : String → Option (List (String × JValue)) → Option Bool →
      TransportCall
  | pagesRetrieve : String → TransportCall
  | databasesQuery : String → Option NotionFilter → Option (List NotionSort) →
      Option String → Option Nat → TransportCall

/-- A raw wire record of a query page; `properties = none` models a partial
page object (no `properties` member). -/
structure WireRecord where
  id : String
  properties : Option (List (String × JValue))

/-- A raw wire query page: results, `has_more`, `next_cursor`
(`none` models `null`). -/
structure WirePage where
  results : List WireRecord
  has_more : Bool
  next_cursor : Option String

/-- The `args` accepted by the generated `queryDatabase`. -/
structure QueryArgs where
  filter : Option NotionFilter := none
  sorts : Option (List NotionSort) := none
  start_cursor : Option String := none
  page_size : Option Nat := none

/-- A decoded result record as returned by the generated `queryDatabase`. -/
structure DecodedRecord where
  id : String
  properties : List (String × JValue)

/-- The response shape of the generated `queryDatabase`. -/
structure QueryResponse where
  results : List DecodedRecord
  has_more : Bool
  next_cursor : Option String

/-- A runtime validator of the generated `validators` module: a check plus
the structured error list (serialized) it reports after a failed check. -/
structure Validator where
  run : List (String × JValue) → Bool
  errors : List (String × JValue) → String

/-- Everything the generated client holds for one database: its resolved
schema and the optional create/update validators. -/
structure GeneratedDatabase where
  config : ResolvedDatabaseConfig
  createValidator : Option Validator := none
  updateValidator : Option Validator := none

/-- The `databases.query` transport call issued by the generated
`queryDatabase` after filter and sort translation. -/
def queryTransportCall (db : GeneratedDatabase) (args : QueryArgs) :
    TransportCall :=
  .databasesQuery db.config.id
    (args.filter.map (convertFilterToNotion db.config))
    (args.sorts.map (convertSortsToNotion db.config))
    args.start_cursor args.page_size

/-- Embedding of the generated `queryDatabase`: translates filter/sorts,
issues one transport query, drops wire records without a `properties` member,
decodes the rest, and passes `has_more` / `next_cursor` through. -/
def queryDatabase (db : GeneratedDatabase) (fetch : TransportCall → WirePage)
    (args : QueryArgs) : QueryResponse :=
  let response := fetch (queryTransportCall db args)
  { results := response.results.filterMap (fun page =>
      page.properties.map (fun ps =>
        { id := page.id
          properties := convertPropertiesFromNotion db.config ps })),
    has_more := response.has_more,
    next_cursor := response.next_cursor }

/-- JS `response.next_cursor || undefined`: `null` and the empty string both
become `undefined` (no cursor). -/
def jsOrUndefined : Option String → Option String
  | some s => if s == "" then none else some s
  | none => none

/-- JS `args?.page_size || 100`: absent or zero page size becomes 100. -/
def jsOrDefaultPageSize : Option Nat → Nat
  | some n => if n == 0 then 100 else n
  | none => 100

/-- The `args` passed to `queryDatabase` by each loop iteration of the
generated `queryDatabaseAll` / `queryDatabaseIterator`: the caller's args
with `start_cursor` overridden and `page_size` defaulted. -/
def queryLoopArgs (args : QueryArgs) (cursor : Option String) : QueryArgs :=
  { args with
    start_cursor := cursor
    page_size := some (jsOrDefaultPageSize args.page_size) }

/-- Embedding of the `while (hasMore)` loop of the generated
`queryDatabaseAll`, with an explicit accumulator for `allResults` and fuel
bounding the number of iterations (`none` = the loop does not finish within
the given fuel; a transport whose page sequence is finite admits a
sufficient fuel). -/
def queryDatabaseAllGo (db : GeneratedDatabase)
    (fetch : TransportCall → WirePage) (args : QueryArgs) :
    Nat → Option String → List DecodedRecord → Option (List DecodedRecord)
  | 0, _, _ => none
  | fuel + 1, cursor, allResults =>
    let response := queryDatabase db fetch (queryLoopArgs args cursor)
    let acc := allResults ++ response.results
    if response.has_more then
      queryDatabaseAllGo db fetch args fuel
        (jsOrUndefined response.next_cursor) acc
    else some acc

/-- Embedding of the generated `queryDatabaseAll`. -/
def queryDatabaseAll (db : GeneratedDatabase)
    (fetch : TransportCall → WirePage) (args : QueryArgs) (fuel : Nat) :
    Option (List DecodedRecord) :=
  queryDatabaseAllGo db fetch args fuel none []

/-- Manual pagination as described by the spec: call `queryDatabase`, feed
each call the previous response's next cursor, stop when `has_more` is false,
and collect the sequence of responses. -/
def manualQueryPages (db : GeneratedDatabase)
    (fetch : TransportCall → WirePage) (args : QueryArgs) :
    Nat → Option String → Option (List QueryResponse)
  | 0, _ => none
  | fuel + 1, cursor =>
    let response := queryDatabase db fetch (queryLoopArgs args cursor)
    if response.has_more then
      (manualQueryPages db fetch args fuel
        (jsOrUndefined response.next_cursor)).map (fun rest => response :: rest)
    else some [response]

/-- Items delivered and transport calls issued when a consumer requests
exactly the first `n` items of the generated `queryDatabaseIterator` and then
stops.  The async generator body runs lazily: no call is made before the
first request; after yielding the last item of a page the generator suspends
at the yield, and the next page is fetched only when a further item is
requested. -/
def queryDatabaseIteratorTake (db : GeneratedDatabase)
    (fetch : TransportCall → WirePage) (args : QueryArgs) :
    Nat → Option String → Nat → List DecodedRecord × Nat
  | 0, _, _ => ([], 0)
  | fuel + 1, cursor, n =>
    if n = 0 then ([], 0)
    else
      let response := queryDatabase db fetch (queryLoopArgs args cursor)
      if n ≤ response.results.length then (response.results.take n, 1)
      else if response.has_more then
        let rest := queryDatabaseIteratorTake db fetch args fuel
          (jsOrUndefined response.next_cursor) (n - response.results.length)
        (response.results ++ rest.1, rest.2 + 1)
      else (response.results, 1)

/-- Embedding of the generated `createPage`: validate (fail fast with the
validator's serialized structured error list and no transport call), encode,
issue one `pages.create`, require a full response, decode.  The first
component is the list of transport calls issued, in order. -/
def createPage (db : GeneratedDatabase) (transport : TransportCall → JValue)
    (properties : List (String × JValue)) :
    List TransportCall × Except String JValue :=
  let databaseId := db.config.id
  let send : List TransportCall × Except String JValue :=
    let notionProperties :=
      serializeProperties (convertPropertiesToNotion db.config properties)
    let call := TransportCall.pagesCreate databaseId notionProperties
    let response := transport call
    if jhas response "properties" then
      ([call], .ok (jspreadSet response "properties"
        (.obj (convertPropertiesFromNotion db.config
          (match jget response "properties" with
           | .obj fs => fs
           | _ => [])))))
    else ([call], .error "Failed to create page: received partial response")
  match db.createValidator with
  | some validator =>
    if validator.run properties then send
    else ([], .error ("Validation failed: " ++ validator.errors properties))
  | none => send

/-- Embedding of the generated `updatePage` (same gate as `createPage`, with
one `pages.update` carrying the encoded properties and no archived flag). -/
def updatePage (db : GeneratedDatabase) (transport : TransportCall → JValue)
    (pageId : String) (properties : List (String × JValue)) :
    List TransportCall × Except String JValue :=
  let send : List TransportCall × Except String JValue :=
    let notionProperties :=
      serializeProperties (convertPropertiesToNotion db.config properties)
    let call := TransportCall.pagesUpdate pageId (some notionProperties) none
    let response := transport call
    if jhas response "properties" then
      ([call], .ok (jspreadSet response "properties"
        (.obj (convertPropertiesFromNotion db.config
          (match jget response "properties" with
           | .obj fs => fs
           | _ => [])))))
    else ([call], .error "Failed to update page: received partial response")
  match db.updateValidator with
  | some validator =>
    if validator.run properties then send
    else ([], .error ("Validation failed: " ++ validator.errors properties))
  | none => send

/-- Embedding of the generated `deletePage`: a single `pages.update` with
`archived: true` and no properties. -/
def deletePage (transport : TransportCall → JValue) (pageId : String) :
    List TransportCall × Except String JValue :=
  let call := TransportCall.pagesUpdate pageId none (some true)
  ([call], .ok (transport call))

lemma queryDatabaseAllGo_eq_manual (db : GeneratedDatabase)
    (fetch : TransportCall → WirePage) (args : QueryArgs) :
    ∀ (fuel : Nat) (cursor : Option String) (acc : List DecodedRecord)
      (pages : List QueryResponse),
      manualQueryPages db fetch args fuel cursor = some pages →
      queryDatabaseAllGo db fetch args fuel cursor acc =
        some (acc ++ (pages.map QueryResponse.results).flatten) := by
  intro fuel
  induction fuel with
  | zero =>
    intro cursor acc pages h
    exact absurd h (by simp [manualQueryPages])
  | succ fuel ih =>
    intro cursor acc pages h
    simp only [manualQueryPages] at h
    simp only [queryDatabaseAllGo]
    by_cases hm :
        (queryDatabase db fetch (queryLoopArgs args cursor)).has_more = true
    · rw [if_pos hm] at h
      rw [if_pos hm]
      obtain ⟨rest, hrest, rfl⟩ := Option.map_eq_some'.mp h
      rw [ih _ _ rest hrest]
      simp [List.append_assoc]
    · rw [if_neg hm] at h
      rw [if_neg hm]
      cases h
      simp

/-- C5: for every database, filter/sort specification, page size and transport
whose page sequence is finite (here: `manualQueryPages` terminates within some
fuel), `queryDatabaseAll` returns exactly the concatenation of the results of
manually iterating `queryDatabase`, feeding each call the previous response's
next cursor, until `has_more` is false. -/
theorem queryDatabaseAll_eq_manual_concatenation
    (db : GeneratedDatabase) (fetch : TransportCall → WirePage)
    (args : QueryArgs) (fuel : Nat) (pages : List QueryResponse)
    (h : manualQueryPages db fetch args fuel none = some pages) :
    queryDatabaseAll db fetch args fuel =
      some (pages.map QueryResponse.results).flatten := by
  have hgo := queryDatabaseAllGo_eq_manual db fetch args fuel none [] pages h
  simpa [queryDatabaseAll] using hgo

/-- A sample wire record whose only property is a title under the wire name
`Name`, used by the concrete pagination witnesses. -/
def wireRec (i : String) : WireRecord :=
  { id := i,
    properties := some [("Name", .obj [("title", .arr [.obj [("text",
      .obj [("content", .str i)])]])])] }

/-- A sample two-page transport: the first (cursor-less) query returns two
records and `has_more` with cursor `c1`; any cursor-carrying query returns the
final one-record page. -/
def sampleFetch : TransportCall → WirePage := fun call =>
  match call with
  | .databasesQuery _ _ _ none _ =>
    { results := [wireRec "r1", wireRec "r2"], has_more := true,
      next_cursor := some "c1" }
  | _ =>
    { results := [wireRec "r3"], has_more := false, next_cursor := none }

/-- The sample database bundled for the generated-client operations. -/
def sampleDb : GeneratedDatabase := { config := sampleDbConfig }

/-- Witness for C5 at the sample two-page transport: manual iteration yields
the two pages, and `queryDatabaseAll` yields the concatenation of their
results. -/
theorem queryDatabaseAll_eq_manual_concatenation_witness :
    manualQueryPages sampleDb sampleFetch {} 3 none = some
      [{ results := [⟨"r1", [("name", .str "r1")]⟩,
           ⟨"r2", [("name", .str "r2")]⟩],
         has_more := true, next_cursor := some "c1" },
       { results := [⟨"r3", [("name", .str "r3")]⟩],
         has_more := false, next_cursor := none }] ∧
    queryDatabaseAll sampleDb sampleFetch {} 3 = some
      ([[⟨"r1", [("name", .str "r1")]⟩, ⟨"r2", [("name", .str "r2")]⟩],
        [⟨"r3", [("name", .str "r3")]⟩]] : List (List DecodedRecord)).flatten :=
  ⟨rfl,
   queryDatabaseAll_eq_manual_concatenation sampleDb sampleFetch {} 3
     [{ results := [⟨"r1", [("name", .str "r1")]⟩,
          ⟨"r2", [("name", .str "r2")]⟩],
        has_more := true, next_cursor := some "c1" },
      { results := [⟨"r3", [("name", .str "r3")]⟩],
        has_more := false, next_cursor := none }] rfl⟩

/-- C6: if every non-final page delivered by the transport carries exactly
`P > 0` decoded items, then a consumer that requests only the first `n` items
of `queryDatabaseIterator` causes at most `ceil(n / P)` transport query calls
(first conjunct, with `ceil(n / P) = (n + P - 1) / P` in natural division),
and a consumer that requests no items causes no transport call at all; once
the consumer stops requesting items the generator is suspended and by
construction issues no further calls. -/
theorem queryDatabaseIterator_call_bound (db : GeneratedDatabase)
    (fetch : TransportCall → WirePage) (args : QueryArgs) (P : Nat)
    (hP : 0 < P)
    (hpages : ∀ cursor,
      (queryDatabase db fetch (queryLoopArgs args cursor)).has_more = true →
      (queryDatabase db fetch (queryLoopArgs args cursor)).results.length = P) :
    (∀ fuel cursor n,
      (queryDatabaseIteratorTake db fetch args fuel cursor n).2 ≤
        (n + P - 1) / P) ∧
    (∀ fuel cursor,
      (queryDatabaseIteratorTake db fetch args fuel cursor 0).2 = 0) := by
  constructor
  · intro fuel
    induction fuel with
    | zero => intro cursor n; simp [queryDatabaseIteratorTake]
    | succ fuel ih =>
      intro cursor n
      simp only [queryDatabaseIteratorTake]
      by_cases hn : n = 0
      · rw [if_pos hn]; simp
      · rw [if_neg hn]
        have hn1 : 1 ≤ n := Nat.one_le_iff_ne_zero.mpr hn
        by_cases hle : n ≤
            (queryDatabase db fetch (queryLoopArgs args cursor)).results.length
        · rw [if_pos hle]
          exact (Nat.one_le_div_iff hP).mpr (by omega)
        · rw [if_neg hle]
          by_cases hm :
              (queryDatabase db fetch (queryLoopArgs args cursor)).has_more = true
          · rw [if_pos hm]
            have hlen := hpages cursor hm
            rw [hlen]
            have hrec := ih (jsOrUndefined
              (queryDatabase db fetch (queryLoopArgs args cursor)).next_cursor)
              (n - P)
            have hnp : 1 ≤ n - P := by omega
            have heq1 : n - P + P - 1 = n - 1 := by omega
            have heq2 : n + P - 1 = (n - 1) + P := by omega
            rw [heq1] at hrec
            rw [heq2, Nat.add_div_right _ hP]
            omega
          · rw [if_neg hm]
            exact (Nat.one_le_div_iff hP).mpr (by omega)
  · intro fuel cursor
    cases fuel with
    | zero => rfl
    | succ fuel => simp [queryDatabaseIteratorTake]

/-- Witness for C6 at the sample two-page transport (non-final pages carry
two items): requesting three items costs at most `ceil(3/2) = 2` transport
calls, and requesting no items costs none. -/
theorem queryDatabaseIterator_call_bound_witness :
    (queryDatabaseIteratorTake sampleDb sampleFetch {} 5 none 3).2 ≤ 2 ∧
    (queryDatabaseIteratorTake sampleDb sampleFetch {} 5 none 0).2 = 0 :=
  ⟨(queryDatabaseIterator_call_bound sampleDb sampleFetch {} 2 (by decide)
      (fun cursor h => by
        cases cursor with
        | none => rfl
        | some s => exact absurd h (by simp [queryDatabase, queryTransportCall,
            sampleFetch, queryLoopArgs]))).1 5 none 3,
   (queryDatabaseIterator_call_bound sampleDb sampleFetch {} 2 (by decide)
      (fun cursor h => by
        cases cursor with
        | none => rfl
        | some s => exact absurd h (by simp [queryDatabase, queryTransportCall,
            sampleFetch, queryLoopArgs]))).2 5 none⟩

/-- C7: when the registered validator for the database and mode rejects the
payload, `createPage` (and `updatePage`) fails with the validation error
carrying the validator's serialized structured error list, and the transport
call list is empty — the failure occurs strictly before any wire call. -/
theorem createPage_updatePage_validation_gate (db : GeneratedDatabase)
    (transport : TransportCall → JValue)
    (properties : List (String × JValue)) :
    (∀ v, db.createValidator = some v → v.run properties = false →
      createPage db transport properties =
        ([], .error ("Validation failed: " ++ v.errors properties))) ∧
    (∀ pageId v, db.updateValidator = some v → v.run properties = false →
      updatePage db transport pageId properties =
        ([], .error ("Validation failed: " ++ v.errors properties))) := by
  constructor
  · intro v hv hrun
    simp [createPage, hv, hrun]
  · intro pageId v hv hrun
    simp [updatePage, hv, hrun]

/-- A validator rejecting every payload, with a fixed structured error list,
used by the validation-gate witness. -/
def rejectAllValidator : Validator :=
  { run := fun _ => false
    errors := fun _ =>
      "[\x7binstancePath: /name, keyword: required\x7d]" }

/-- The sample database equipped with the rejecting validator for both
modes. -/
def sampleDbRejecting : GeneratedDatabase :=
  { config := sampleDbConfig
    createValidator := some rejectAllValidator
    updateValidator := some rejectAllValidator }

/-- Witness for C7: with the rejecting validator installed, `createPage` and
`updatePage` on a concrete payload return the validation error and an empty
transport call list. -/
theorem createPage_updatePage_validation_gate_witness :
    createPage sampleDbRejecting (fun _ => .obj []) [("name", .str "x")] =
      ([], .error ("Validation failed: " ++
        rejectAllValidator.errors [("name", .str "x")])) ∧
    updatePage sampleDbRejecting (fun _ => .obj []) "page-1"
        [("name", .str "x")] =
      ([], .error ("Validation failed: " ++
        rejectAllValidator.errors [("name", .str "x")])) :=
  ⟨(createPage_updatePage_validation_gate sampleDbRejecting (fun _ => .obj [])
      [("name", .str "x")]).1 rejectAllValidator rfl rfl,
   (createPage_updatePage_validation_gate sampleDbRejecting (fun _ => .obj [])
      [("name", .str "x")]).2 "page-1" rejectAllValidator rfl rfl⟩

/-- C8: a missing logical-to-wire name mapping is never fatal.  Encoding and
decoding silently drop a payload field whose name has no mapping (the result
equals the conversion without that field; the functions are total, so no
exception is possible); a filter leaf — ordinary or `status_group` — whose
logical property name has no mapping passes through unchanged; and a sort
entry whose property name has no mapping passes through unchanged
(`convertSortsToNotion` maps `convertSortToNotion` over the entries). -/
theorem unmappedProperty_skip_passthrough :
    (∀ (cfg : ResolvedDatabaseConfig) (k : String) (v : JValue)
        (props₁ props₂ : List (String × JValue)),
      cfg.properties.find? (fun pr => pr.name == k) = none →
      convertPropertiesToNotion cfg (props₁ ++ (k, v) :: props₂) =
        convertPropertiesToNotion cfg (props₁ ++ props₂)) ∧
    (∀ (cfg : ResolvedDatabaseConfig) (k : String) (v : JValue)
        (props₁ props₂ : List (String × JValue)),
      cfg.properties.find? (fun pr => pr.notionName == k) = none →
      convertPropertiesFromNotion cfg (props₁ ++ (k, v) :: props₂) =
        convertPropertiesFromNotion cfg (props₁ ++ props₂)) ∧
    (∀ (cfg : ResolvedDatabaseConfig) (p tk : String) (cond : JValue),
      cfg.properties.find? (fun pr => pr.name == p) = none →
      convertFilterToNotion cfg (.prop p tk cond) = .prop p tk cond) ∧
    (∀ (cfg : ResolvedDatabaseConfig) (p : String) (op : StatusGroupOp),
      cfg.properties.find? (fun pr => pr.name == p) = none →
      convertFilterToNotion cfg (.status_group p op) = .status_group p op) ∧
    (∀ (cfg : ResolvedDatabaseConfig) (s : NotionSort) (p : String),
      s.property = some p →
      cfg.properties.find? (fun pr => pr.name == p) = none →
      convertSortToNotion cfg s = s) ∧
    (∀ (cfg : ResolvedDatabaseConfig) (sorts : List NotionSort),
      convertSortsToNotion cfg sorts = sorts.map (convertSortToNotion cfg)) := by
  refine ⟨?_, ?_, ?_, ?_, ?_, fun _ _ => rfl⟩
  · intro cfg k v props₁ props₂ hfind
    simp [convertPropertiesToNotion, List.foldl_append, hfind]
  · intro cfg k v props₁ props₂ hfind
    simp [convertPropertiesFromNotion, List.foldl_append, hfind]
  · intro cfg p tk cond hfind
    simp [convertFilterToNotion, hfind]
  · intro cfg p op hfind
    simp [convertFilterToNotion, hfind]
  · intro cfg s p hp hfind
    unfold convertSortToNotion
    rw [hp]
    by_cases he : p == ""
    · simp [he]
    · simp [he, hfind]

/-- Witness for C8: at the sample schema, a payload field, a filter leaf, a
`status_group` leaf and a sort entry named `unknown` (which has no mapping)
are dropped or passed through unchanged. -/
theorem unmappedProperty_skip_passthrough_witness :
    convertPropertiesToNotion sampleDbConfig
        [("name", .str "a"), ("unknown", .str "b")] =
      convertPropertiesToNotion sampleDbConfig [("name", .str "a")] ∧
    convertPropertiesFromNotion sampleDbConfig
        [("Unknown", .str "b"), ("Name", .obj [("title", .arr [])])] =
      convertPropertiesFromNotion sampleDbConfig
        [("Name", .obj [("title", .arr [])])] ∧
    convertFilterToNotion sampleDbConfig
        (.prop "unknown" "status" (.obj [("equals", .str "x")])) =
      .prop "unknown" "status" (.obj [("equals", .str "x")]) ∧
    convertFilterToNotion sampleDbConfig (.status_group "unknown" .is_empty) =
      .status_group "unknown" .is_empty ∧
    convertSortToNotion sampleDbConfig
        { property := some "unknown", direction := "ascending" } =
      { property := some "unknown", direction := "ascending" } :=
  ⟨by
    have h := unmappedProperty_skip_passthrough.1 sampleDbConfig "unknown"
      (.str "b") [("name", .str "a")] [] rfl
    simpa using h,
   by
    have h := unmappedProperty_skip_passthrough.2.1 sampleDbConfig "Unknown"
      (.str "b") [] [("Name", .obj [("title", .arr [])])] rfl
    simpa using h,
   unmappedProperty_skip_passthrough.2.2.1 sampleDbConfig "unknown" "status"
     (.obj [("equals", .str "x")]) rfl,
   unmappedProperty_skip_passthrough.2.2.2.1 sampleDbConfig "unknown"
     .is_empty rfl,
   unmappedProperty_skip_passthrough.2.2.2.2.1 sampleDbConfig
     { property := some "unknown", direction := "ascending" } "unknown" rfl
     rfl⟩

/-- C9: `deletePage` issues exactly one transport call — a `pages.update` on
the given page with the archived flag set to true and no properties — and no
hard-delete primitive exists among the transport calls it makes. -/
theorem deletePage_is_single_archive_update
    (transport : TransportCall → JValue) (pageId : String) :
    deletePage transport pageId =
      ([TransportCall.pagesUpdate pageId none (some true)],
       .ok (transport (TransportCall.pagesUpdate pageId none (some true)))) :=
  rfl

lemma filterMap_decode_eq (f : WireRecord → List (String × JValue) →
    DecodedRecord) (l : List WireRecord) :
    l.filterMap (fun page => page.properties.map (f page)) =
      (l.filter (fun r => r.properties.isSome)).map
        (fun r => f r (r.properties.getD [])) := by
  induction l with
  | nil => rfl
  | cons r rs ih =>
    cases h : r.properties with
    | none => simp [List.filterMap_cons, List.filter_cons, h, ih]
    | some ps => simp [List.filterMap_cons, List.filter_cons, h, ih]

/-- C10: `queryDatabase` silently drops every wire record that lacks a
`properties` member (a partial page object) before decoding, passes
`has_more` and `next_cursor` through unchanged, and consequently returns
strictly fewer results than the wire page delivered whenever such a record is
present. -/
theorem queryDatabase_drops_partialRecords (db : GeneratedDatabase)
    (fetch : TransportCall → WirePage) (args : QueryArgs) :
    (queryDatabase db fetch args).results =
      ((fetch (queryTransportCall db args)).results.filter
          (fun r => r.properties.isSome)).map (fun r =>
        { id := r.id
          properties :=
            convertPropertiesFromNotion db.config (r.properties.getD []) }) ∧
    (queryDatabase db fetch args).has_more =
      (fetch (queryTransportCall db args)).has_more ∧
    (queryDatabase db fetch args).next_cursor =
      (fetch (queryTransportCall db args)).next_cursor ∧
    (∀ r ∈ (fetch (queryTransportCall db args)).results, r.properties = none →
      (queryDatabase db fetch args).results.length <
        (fetch (queryTransportCall db args)).results.length) := by
  refine ⟨?_, rfl, rfl, ?_⟩
  · exact filterMap_decode_eq
      (fun page ps => { id := page.id
                        properties := convertPropertiesFromNotion db.config ps })
      (fetch (queryTransportCall db args)).results
  · intro r hr hnone
    have hres := filterMap_decode_eq
      (fun page ps => { id := page.id
                        properties := convertPropertiesFromNotion db.config ps })
      (fetch (queryTransportCall db args)).results
    show (queryDatabase db fetch args).results.length < _
    have : (queryDatabase db fetch args).results =
        ((fetch (queryTransportCall db args)).results.filter
          (fun r => r.properties.isSome)).map _ := hres
    rw [this, List.length_map]
    exact List.length_filter_lt_length_iff_exists.mpr
      ⟨r, hr, by simp [hnone]⟩

/-- Witness for C10 at a concrete wire page containing one partial record:
the partial record is dropped, the page flags pass through, and the result
count is strictly smaller than the wire count. -/
theorem queryDatabase_drops_partialRecords_witness :
    (queryDatabase sampleDb
        (fun _ => { results := [wireRec "r1", ⟨"partialRec", none⟩],
                    has_more := false, next_cursor := none }) {}).results =
      [⟨"r1", [("name", .str "r1")]⟩] ∧
    (queryDatabase sampleDb
        (fun _ => { results := [wireRec "r1", ⟨"partialRec", none⟩],
                    has_more := false, next_cursor := none }) {}).results.length
      < 2 :=
  ⟨rfl,
   (queryDatabase_drops_partialRecords sampleDb
      (fun _ => { results := [wireRec "r1", ⟨"partialRec", none⟩],
                  has_more := false, next_cursor := none }) {}).2.2.2
     ⟨"partialRec", none⟩ (by simp) rfl⟩
